import Mathlib

/-!
Shallow embedding of the mermaid-to-svg Cloudflare Worker (`src/index.ts`,
the version with KV-backed cache statistics).  The worker's `fetch` handler
is modelled as a pure function over an explicit state (the `stats` entry of
the `CACHE_STATS` KV namespace and the `caches.default` content cache),
parameterised by the two opaque externals (`decompressFromEncodedURIComponent`
and the puppeteer render block) and by fault-injection flags for the external
stores.  Every handled request additionally yields a trace of its observable
store/render effects in program order.
-/

namespace MermaidToSvg

/-- The cache-statistics record stored under the `stats` key of the
`CACHE_STATS` KV namespace (`interface CacheStats` in `src/index.ts`).
`JSON.stringify`/`JSON.parse` round-trip, so the KV value is modelled as the
record itself. -/
structure CacheStats where
  hits : Nat
  misses : Nat
  lastReset : String
deriving DecidableEq, Repr

/-- Body of an HTTP `Response`.  Plain-text bodies are `text`; the JSON
bodies produced by `JSON.stringify` on the three debug endpoints are kept
structured (`statsJson`, `messageJson`, `entriesJson`), modelling the
injective serialisation without embedding a JSON printer.  `statsJson`
carries the spread stats record plus the derived `total`, `hitRate` and
`efficiency` fields, in source order. -/
inductive Body where
  | text (s : String)
  | statsJson (hits misses : Nat) (lastReset : String) (total : Nat)
      (hitRate : String) (efficiency : String)
  | messageJson (msg : String)
  | entriesJson (count : Nat) (entries : List (String × String))
deriving DecidableEq, Repr

/-- An HTTP response, `new Response(body, init)`: status (default 200) and
headers in declaration order. -/
structure Response where
  body : Body
  status : Nat
  headers : List (String × String)
deriving DecidableEq, Repr

/-- The parts of an incoming request the worker reads: `request.url` (the
verbatim canonical URL, used as the cache key), `url.pathname`, and the
`mermaid` and `theme` query parameters (`url.searchParams.get`, with `none`
for an absent parameter; an empty-valued parameter is `some ""`, which is
falsy in the source's checks). -/
structure Req where
  url : String
  pathname : String
  mermaidParam : Option String
  themeParam : Option String
deriving DecidableEq, Repr

/-- External state the worker touches: the `stats` entry of the
`CACHE_STATS` KV namespace (`none` when never written) and the
`caches.default` content cache, an association list from request URL to the
stored response in insertion order (`cache.keys()` enumerates this order). -/
structure WorkerState where
  kvStats : Option CacheStats
  cache : List (String × Response)
deriving DecidableEq, Repr

/-- Model of `cache.match(request.url)`: look the URL up in the content cache. -/
def cacheMatch (c : List (String × Response)) (url : String) : Option Response :=
  match c with
  | [] => none
  | (k, r) :: rest => if k = url then some r else cacheMatch rest url

/-- Model of `cache.put(request, response)`: store the response under the
request's URL, overwriting any existing entry for the same URL. -/
def cachePut (c : List (String × Response)) (url : String) (r : Response) :
    List (String × Response) :=
  match c with
  | [] => [(url, r)]
  | (k, r0) :: rest =>
      if k = url then (url, r) :: rest else (k, r0) :: cachePut rest url r

/-- Source function `getCacheStats(env)`: read the `stats` KV entry; when
absent, return zeroed counters with a fresh timestamp (lazy initialisation,
not persisted).  `now` models `new Date().toISOString()`. -/
def getCacheStats (now : String) (kv : Option CacheStats) : CacheStats :=
  match kv with
  | none => { hits := 0, misses := 0, lastReset := now }
  | some s => s

/-- Source function `incrementCacheHit(env)`: read-modify-write,
`stats.hits++`; the value written back to KV. -/
def incrementCacheHit (now : String) (kv : Option CacheStats) : CacheStats :=
  let s := getCacheStats now kv
  { s with hits := s.hits + 1 }

/-- Source function `incrementCacheMiss(env)`: read-modify-write,
`stats.misses++`; the value written back to KV. -/
def incrementCacheMiss (now : String) (kv : Option CacheStats) : CacheStats :=
  let s := getCacheStats now kv
  { s with misses := s.misses + 1 }

/-- Source function `resetCacheStats(env)`: the zeroed record written
unconditionally. -/
def resetCacheStats (now : String) : CacheStats :=
  { hits := 0, misses := 0, lastReset := now }

/-- Two-digit zero-padded decimal string for the fraction part. -/
def pad2 (n : Nat) : String :=
  if n < 10 then "0" ++ toString n else toString n

/-- Model of `total > 0 ? ((hits / total) * 100).toFixed(2) : '0.00'` with
the percent sign appended, using exact rational rounding of
`hits * 100 / total` to two decimals (round half up): `centi` is the rate
in hundredths of a percent. -/
def hitRateString (hits total : Nat) : String :=
  if 0 < total then
    let centi := (hits * 20000 + total) / (2 * total)
    toString (centi / 100) ++ "." ++ pad2 (centi % 100) ++ "%"
  else "0.00%"

/-- The `efficiency` field of the stats view. -/
def efficiencyString (hits total : Nat) : String :=
  if 0 < total then
    toString hits ++ "/" ++ toString total ++ " requests served from cache"
  else "No requests yet"

/-- Model of `url.searchParams.get('theme') === 'dark' ? 'dark' : 'default'`. -/
def themeOf (req : Req) : String :=
  if req.themeParam = some "dark" then "dark" else "default"

/-- Observable store/render effects of one request, in program order.
`asyncCachePut` is the `ctx.waitUntil(cache.put(request, response.clone()))`
write: initiated before the handler returns but not awaited. -/
inductive Ev where
  | kvGet
  | kvPut (v : CacheStats)
  | cacheMatch (url : String) (hit : Bool)
  | renderCall (source theme : String)
  | asyncCachePut (url : String)
deriving DecidableEq, Repr

/-- Fault injection for the external stores: whether a KV read
(`CACHE_STATS.get`), KV write (`CACHE_STATS.put`), cache lookup
(`cache.match`) or cache store (`cache.put`) throws during this request.
The source has no try/catch around the KV operations or the lookup, so
those faults escape the handler; the `waitUntil` cache write is detached,
so its fault only loses the write. -/
structure Faults where
  kvGetFails : Bool
  kvPutFails : Bool
  matchFails : Bool
  putFails : Bool
deriving DecidableEq, Repr

/-- The fault-free execution. -/
def noFaults : Faults := ⟨false, false, false, false⟩

/-- The response for a well-formed rendered artifact (`new Response(svg, ...)`,
source lines 259-264): status 200 with the image content type and a one-year
freshness directive. -/
def svgResponse (svg : String) : Response :=
  { body := .text svg
    status := 200
    headers := [("Content-Type", "image/svg+xml"),
                ("Cache-Control", "public, max-age=31536000")] }

/-- Model of the well-formedness check `svg.startsWith('<svg')`: the
character sequence of the output begins with the expected markup tag. -/
def startsWithSvg (svg : String) : Bool :=
  "<svg".data.isPrefixOf svg.data

/-- The `/svg` branch of the handler (source lines 205-271): extract and
decompress the `mermaid` parameter, consult the cache, record hit/miss,
render on a miss, validate and cache the output.  `dec` models
`decompressFromEncodedURIComponent` (`none` = `null`); `render` models the
whole puppeteer block (`Except.error` = any thrown fault).  Returns
`Except.error ()` when an uncaught store fault escapes the handler. -/
def handleSvg (f : Faults) (dec : String → Option String)
    (render : String → String → Except Unit String) (now : String)
    (req : Req) (s : WorkerState) :
    Except Unit (Response × WorkerState × List Ev) :=
  match req.mermaidParam with
  | none =>
      .ok ({ body := .text "Missing mermaid parameter", status := 400, headers := [] }, s, [])
  | some compressed =>
    if compressed = "" then
      .ok ({ body := .text "Missing mermaid parameter", status := 400, headers := [] }, s, [])
    else
      match dec compressed with
      | none =>
          .ok ({ body := .text "Failed to decompress mermaid parameter", status := 400,
                 headers := [] }, s, [])
      | some mermaidString =>
        if mermaidString = "" then
          .ok ({ body := .text "Failed to decompress mermaid parameter", status := 400,
                 headers := [] }, s, [])
        else
          if f.matchFails then .error () else
          match cacheMatch s.cache req.url with
          | some response =>
              -- cache hit: `await incrementCacheHit(env)` (uncaught), return cached
              if f.kvGetFails then .error () else
              if f.kvPutFails then .error () else
              .ok (response,
                   { s with kvStats := some (incrementCacheHit now s.kvStats) },
                   [.cacheMatch req.url true, .kvGet, .kvPut (incrementCacheHit now s.kvStats)])
          | none =>
              -- cache miss: `await incrementCacheMiss(env)` (uncaught), then render
              if f.kvGetFails then .error () else
              if f.kvPutFails then .error () else
              let s1 : WorkerState := { s with kvStats := some (incrementCacheMiss now s.kvStats) }
              let theme := themeOf req
              let pre : List Ev :=
                [.cacheMatch req.url false, .kvGet,
                 .kvPut (incrementCacheMiss now s.kvStats), .renderCall mermaidString theme]
              match render mermaidString theme with
              | .error _ =>
                  .ok ({ body := .text "Internal error", status := 500, headers := [] }, s1, pre)
              | .ok svg =>
                if startsWithSvg svg = false then
                  .ok ({ body := .text "Failed to render SVG", status := 500, headers := [] },
                       s1, pre)
                else
                  let response := svgResponse svg
                  .ok (response,
                       { s1 with cache := if f.putFails then s1.cache
                                          else cachePut s1.cache req.url response },
                       pre ++ [.asyncCachePut req.url])

/-- The worker's `fetch` handler (source lines 157-271): route on
`url.pathname` through the three stats/debug endpoints, 404 for other
paths, and the `/svg` render pipeline. -/
def fetch (f : Faults) (dec : String → Option String)
    (render : String → String → Except Unit String) (now : String)
    (req : Req) (s : WorkerState) :
    Except Unit (Response × WorkerState × List Ev) :=
  if req.pathname = "/cache-stats" then
    if f.kvGetFails then .error () else
    let stats := getCacheStats now s.kvStats
    let total := stats.hits + stats.misses
    .ok ({ body := .statsJson stats.hits stats.misses stats.lastReset total
             (hitRateString stats.hits total) (efficiencyString stats.hits total)
           status := 200
           headers := [("Content-Type", "application/json")] }, s, [.kvGet])
  else if req.pathname = "/cache-stats/reset" then
    if f.kvPutFails then .error () else
    .ok ({ body := .messageJson "Cache statistics reset", status := 200,
           headers := [("Content-Type", "application/json")] },
         { s with kvStats := some (resetCacheStats now) },
         [.kvPut (resetCacheStats now)])
  else if req.pathname = "/cache-entries" then
    let entries := s.cache.map (fun e => (e.1, "GET"))
    .ok ({ body := .entriesJson entries.length (entries.take 50), status := 200,
           headers := [("Content-Type", "application/json")] }, s, [])
  else if req.pathname = "/svg" then
    handleSvg f dec render now req s
  else
    .ok ({ body := .text "Not found", status := 404, headers := [] }, s, [])

/-- Sum of the two counters in a KV stats value (`0` when the record is
absent, matching the lazy zero initialisation of `getCacheStats`). -/
def statsSum : Option CacheStats → Nat
  | none => 0
  | some s => s.hits + s.misses

/-- Number of cache lookups (`cache.match` calls) recorded in an effect
trace. -/
def countLookups : List Ev → Nat
  | [] => 0
  | Ev.cacheMatch _ _ :: rest => countLookups rest + 1
  | _ :: rest => countLookups rest

/-- Run a list of requests sequentially through the fault-free handler,
threading the state; each request carries its own `now` timestamp.  (The
`.error` branch is unreachable under `noFaults`.) -/
def runReqs (dec : String → Option String)
    (render : String → String → Except Unit String) :
    WorkerState → List (Req × String) → WorkerState
  | s, [] => s
  | s, (r, now) :: rest =>
      match fetch noFaults dec render now r s with
      | .error _ => s
      | .ok (_, s2, _) => runReqs dec render s2 rest

/-- Tally of cache lookups since the most recent reset, folded over a
request sequence: a `/cache-stats/reset` request zeroes the tally, and
every lookup a request performs adds one. -/
def lookupTally (dec : String → Option String)
    (render : String → String → Except Unit String) :
    Nat → WorkerState → List (Req × String) → Nat
  | acc, _, [] => acc
  | acc, s, (r, now) :: rest =>
      match fetch noFaults dec render now r s with
      | .error _ => acc
      | .ok (_, s2, evs) =>
          lookupTally dec render
            (if r.pathname = "/cache-stats/reset" then 0 else acc + countLookups evs)
            s2 rest

/-- Identity decompressor, for concrete executions. -/
def decId : String → Option String := fun s => some s

/-- Decompressor whose output is always the empty string. -/
def decEmpty : String → Option String := fun _ => some ""

/-- Renderer that always succeeds with a fixed well-formed artifact. -/
def renderSvgOk : String → String → Except Unit String := fun _ _ => .ok "<svg>ok</svg>"

/-- Renderer that always throws. -/
def renderThrow : String → String → Except Unit String := fun _ _ => .error ()

/-- Renderer that returns output failing the well-formedness check. -/
def renderBadOut : String → String → Except Unit String := fun _ _ => .ok "oops"

/-- A concrete `/svg` request. -/
def reqA : Req := ⟨"https://w.dev/svg?mermaid=abc", "/svg", some "abc", none⟩

/-- A concrete `/cache-stats` request. -/
def reqStats : Req := ⟨"https://w.dev/cache-stats", "/cache-stats", none, none⟩

/-- A concrete `/cache-stats/reset` request. -/
def reqReset : Req := ⟨"https://w.dev/cache-stats/reset", "/cache-stats/reset", none, none⟩

/-- A concrete `/cache-entries` request. -/
def reqEntries : Req := ⟨"https://w.dev/cache-entries", "/cache-entries", none, none⟩

/-- The empty initial state. -/
def st0 : WorkerState := ⟨none, []⟩

/-- A state whose cache already holds an entry for `reqA`'s URL. -/
def stHit : WorkerState := ⟨none, [(reqA.url, svgResponse "<svg>cached</svg>")]⟩

/-- A state whose stats record is the spec's worked example. -/
def stStats : WorkerState := ⟨some ⟨45, 12, "2024-01-15T10:30:00.000Z"⟩, []⟩

/-- A state with 73 cached entries. -/
def st73 : WorkerState :=
  ⟨none, (List.range 73).map (fun i => ("https://w.dev/svg?mermaid=" ++ toString i,
    svgResponse "<svg>ok</svg>"))⟩

theorem statsSum_some_incrementCacheHit (now : String) (kv : Option CacheStats) :
    statsSum (some (incrementCacheHit now kv)) = statsSum kv + 1 := by
  cases kv <;> simp [statsSum, incrementCacheHit, getCacheStats] <;> omega

theorem statsSum_some_incrementCacheMiss (now : String) (kv : Option CacheStats) :
    statsSum (some (incrementCacheMiss now kv)) = statsSum kv + 1 := by
  cases kv <;> simp [statsSum, incrementCacheMiss, getCacheStats] <;> omega

theorem fetch_on_stats (f : Faults) (dec : String → Option String)
    (render : String → String → Except Unit String) (now : String)
    (req : Req) (s : WorkerState) (hp : req.pathname = "/cache-stats")
    (hf : f.kvGetFails = false) :
    fetch f dec render now req s =
      .ok ({ body := .statsJson (getCacheStats now s.kvStats).hits
               (getCacheStats now s.kvStats).misses
               (getCacheStats now s.kvStats).lastReset
               ((getCacheStats now s.kvStats).hits + (getCacheStats now s.kvStats).misses)
               (hitRateString (getCacheStats now s.kvStats).hits
                 ((getCacheStats now s.kvStats).hits + (getCacheStats now s.kvStats).misses))
               (efficiencyString (getCacheStats now s.kvStats).hits
                 ((getCacheStats now s.kvStats).hits + (getCacheStats now s.kvStats).misses))
             status := 200
             headers := [("Content-Type", "application/json")] }, s, [.kvGet]) := by
  unfold fetch
  rw [if_pos hp, hf]
  rfl

theorem fetch_on_reset (f : Faults) (dec : String → Option String)
    (render : String → String → Except Unit String) (now : String)
    (req : Req) (s : WorkerState) (hp : req.pathname = "/cache-stats/reset")
    (hf : f.kvPutFails = false) :
    fetch f dec render now req s =
      .ok ({ body := .messageJson "Cache statistics reset", status := 200,
             headers := [("Content-Type", "application/json")] },
           { s with kvStats := some (resetCacheStats now) },
           [.kvPut (resetCacheStats now)]) := by
  unfold fetch
  rw [if_neg (by rw [hp]; decide), if_pos hp, hf]
  rfl

theorem fetch_on_entries (f : Faults) (dec : String → Option String)
    (render : String → String → Except Unit String) (now : String)
    (req : Req) (s : WorkerState) (hp : req.pathname = "/cache-entries") :
    fetch f dec render now req s =
      .ok ({ body := .entriesJson (s.cache.map (fun e => (e.1, "GET"))).length
               ((s.cache.map (fun e => (e.1, "GET"))).take 50)
             status := 200
             headers := [("Content-Type", "application/json")] }, s, []) := by
  unfold fetch
  rw [if_neg (by rw [hp]; decide), if_neg (by rw [hp]; decide), if_pos hp]

theorem fetch_on_notfound (f : Faults) (dec : String → Option String)
    (render : String → String → Except Unit String) (now : String)
    (req : Req) (s : WorkerState)
    (h1 : req.pathname ≠ "/cache-stats") (h2 : req.pathname ≠ "/cache-stats/reset")
    (h3 : req.pathname ≠ "/cache-entries") (h4 : req.pathname ≠ "/svg") :
    fetch f dec render now req s =
      .ok ({ body := .text "Not found", status := 404, headers := [] }, s, []) := by
  unfold fetch
  rw [if_neg h1, if_neg h2, if_neg h3, if_neg h4]

theorem fetch_on_svg (f : Faults) (dec : String → Option String)
    (render : String → String → Except Unit String) (now : String)
    (req : Req) (s : WorkerState) (hp : req.pathname = "/svg") :
    fetch f dec render now req s = handleSvg f dec render now req s := by
  unfold fetch
  rw [if_neg (by rw [hp]; decide), if_neg (by rw [hp]; decide),
      if_neg (by rw [hp]; decide), if_pos hp]

theorem handleSvg_missing_param (f : Faults) (dec : String → Option String)
    (render : String → String → Except Unit String) (now : String)
    (req : Req) (s : WorkerState)
    (hm : req.mermaidParam = none ∨ req.mermaidParam = some "") :
    handleSvg f dec render now req s =
      .ok ({ body := .text "Missing mermaid parameter", status := 400, headers := [] },
           s, []) := by
  unfold handleSvg
  rcases hm with hm | hm <;> rw [hm] <;> rfl

theorem handleSvg_decompress_failed (f : Faults) (dec : String → Option String)
    (render : String → String → Except Unit String) (now : String)
    (req : Req) (s : WorkerState) (c : String)
    (hm : req.mermaidParam = some c) (hc : c ≠ "")
    (hd : dec c = none ∨ dec c = some "") :
    handleSvg f dec render now req s =
      .ok ({ body := .text "Failed to decompress mermaid parameter", status := 400,
             headers := [] }, s, []) := by
  unfold handleSvg
  rcases hd with hd | hd <;> rw [hm] <;> (try dsimp only) <;> rw [if_neg hc, hd] <;> rfl

theorem handleSvg_hit (f : Faults) (dec : String → Option String)
    (render : String → String → Except Unit String) (now : String)
    (req : Req) (s : WorkerState) (c m : String) (resp : Response)
    (hm : req.mermaidParam = some c) (hc : c ≠ "") (hd : dec c = some m) (hme : m ≠ "")
    (hmatch : cacheMatch s.cache req.url = some resp)
    (hf1 : f.matchFails = false) (hf2 : f.kvGetFails = false) (hf3 : f.kvPutFails = false) :
    handleSvg f dec render now req s =
      .ok (resp, { s with kvStats := some (incrementCacheHit now s.kvStats) },
           [.cacheMatch req.url true, .kvGet, .kvPut (incrementCacheHit now s.kvStats)]) := by
  unfold handleSvg
  rw [hm]
  try dsimp only
  rw [if_neg hc, hd]
  try dsimp only
  rw [if_neg hme, hf1]
  try dsimp only
  rw [hmatch, hf2, hf3]
  rfl

theorem handleSvg_miss_render_error (f : Faults) (dec : String → Option String)
    (render : String → String → Except Unit String) (now : String)
    (req : Req) (s : WorkerState) (c m : String)
    (hm : req.mermaidParam = some c) (hc : c ≠ "") (hd : dec c = some m) (hme : m ≠ "")
    (hmatch : cacheMatch s.cache req.url = none)
    (hrender : render m (themeOf req) = .error ())
    (hf1 : f.matchFails = false) (hf2 : f.kvGetFails = false) (hf3 : f.kvPutFails = false) :
    handleSvg f dec render now req s =
      .ok ({ body := .text "Internal error", status := 500, headers := [] },
           { s with kvStats := some (incrementCacheMiss now s.kvStats) },
           [.cacheMatch req.url false, .kvGet, .kvPut (incrementCacheMiss now s.kvStats),
            .renderCall m (themeOf req)]) := by
  unfold handleSvg
  rw [hm]
  try dsimp only
  rw [if_neg hc, hd]
  try dsimp only
  rw [if_neg hme, hf1]
  try dsimp only
  rw [hmatch, hf2, hf3]
  try dsimp only
  rw [hrender]
  rfl

theorem handleSvg_miss_malformed (f : Faults) (dec : String → Option String)
    (render : String → String → Except Unit String) (now : String)
    (req : Req) (s : WorkerState) (c m svg : String)
    (hm : req.mermaidParam = some c) (hc : c ≠ "") (hd : dec c = some m) (hme : m ≠ "")
    (hmatch : cacheMatch s.cache req.url = none)
    (hrender : render m (themeOf req) = .ok svg)
    (hbad : startsWithSvg svg = false)
    (hf1 : f.matchFails = false) (hf2 : f.kvGetFails = false) (hf3 : f.kvPutFails = false) :
    handleSvg f dec render now req s =
      .ok ({ body := .text "Failed to render SVG", status := 500, headers := [] },
           { s with kvStats := some (incrementCacheMiss now s.kvStats) },
           [.cacheMatch req.url false, .kvGet, .kvPut (incrementCacheMiss now s.kvStats),
            .renderCall m (themeOf req)]) := by
  unfold handleSvg
  rw [hm]
  try dsimp only
  rw [if_neg hc, hd]
  try dsimp only
  rw [if_neg hme, hf1]
  try dsimp only
  rw [hmatch, hf2, hf3]
  try dsimp only
  rw [hrender]
  try dsimp only
  rw [hbad]
  rfl

theorem handleSvg_miss_success (f : Faults) (dec : String → Option String)
    (render : String → String → Except Unit String) (now : String)
    (req : Req) (s : WorkerState) (c m svg : String)
    (hm : req.mermaidParam = some c) (hc : c ≠ "") (hd : dec c = some m) (hme : m ≠ "")
    (hmatch : cacheMatch s.cache req.url = none)
    (hrender : render m (themeOf req) = .ok svg)
    (hgood : startsWithSvg svg = true)
    (hf1 : f.matchFails = false) (hf2 : f.kvGetFails = false) (hf3 : f.kvPutFails = false) :
    handleSvg f dec render now req s =
      .ok (svgResponse svg,
           { kvStats := some (incrementCacheMiss now s.kvStats)
             cache := if f.putFails = true then s.cache
                      else cachePut s.cache req.url (svgResponse svg) },
           [.cacheMatch req.url false, .kvGet, .kvPut (incrementCacheMiss now s.kvStats),
            .renderCall m (themeOf req), .asyncCachePut req.url]) := by
  unfold handleSvg
  rw [hm]
  try dsimp only
  rw [if_neg hc, hd]
  try dsimp only
  rw [if_neg hme, hf1]
  try dsimp only
  rw [hmatch, hf2, hf3]
  try dsimp only
  rw [hrender]
  try dsimp only
  rw [hgood]
  rfl

/-- C3: a `/svg` request whose `mermaid` parameter is missing (absent, or
present but empty, which the source's falsy check treats as missing) or
fails to decompress (null or empty result) is answered with a 400
client-error response; the state — stats record and cache contents — is
exactly what it was before, and the effect trace is empty: no stats
mutation and no cache interaction (neither lookup nor store). -/
theorem svg_decode_error_no_side_effects (dec : String → Option String)
    (render : String → String → Except Unit String) (now : String)
    (req : Req) (s : WorkerState) (hp : req.pathname = "/svg")
    (hbad : req.mermaidParam = none ∨ req.mermaidParam = some "" ∨
      ∃ c, req.mermaidParam = some c ∧ c ≠ "" ∧ (dec c = none ∨ dec c = some "")) :
    ∃ msg, fetch noFaults dec render now req s =
      .ok ({ body := .text msg, status := 400, headers := [] }, s, []) := by
  rw [fetch_on_svg noFaults dec render now req s hp]
  rcases hbad with hm | hm | ⟨c, hm, hc, hd⟩
  · exact ⟨"Missing mermaid parameter",
      handleSvg_missing_param noFaults dec render now req s (Or.inl hm)⟩
  · exact ⟨"Missing mermaid parameter",
      handleSvg_missing_param noFaults dec render now req s (Or.inr hm)⟩
  · exact ⟨"Failed to decompress mermaid parameter",
      handleSvg_decompress_failed noFaults dec render now req s c hm hc hd⟩

/-- Witness for C3 at a concrete request with no `mermaid` parameter. -/
theorem svg_decode_error_witness :
    ∃ msg, fetch noFaults decId renderSvgOk "t"
        (⟨"https://w.dev/svg", "/svg", none, none⟩ : Req) st0 =
      .ok ({ body := .text msg, status := 400, headers := [] }, st0, []) :=
  svg_decode_error_no_side_effects decId renderSvgOk "t"
    ⟨"https://w.dev/svg", "/svg", none, none⟩ st0 rfl (Or.inl rfl)

/-- C10: a `/svg` request whose `mermaid` parameter is a valid encoding
that decompresses to the empty string is rejected with the 400
`Failed to decompress mermaid parameter` response, because the source's
falsy check on the decompression result treats an empty string the same
as a `null` (failed) decompression; state and trace are untouched. -/
theorem svg_empty_decompression_rejected (dec : String → Option String)
    (render : String → String → Except Unit String) (now : String)
    (req : Req) (s : WorkerState) (c : String)
    (hp : req.pathname = "/svg") (hm : req.mermaidParam = some c) (hc : c ≠ "")
    (hd : dec c = some "") :
    fetch noFaults dec render now req s =
      .ok ({ body := .text "Failed to decompress mermaid parameter", status := 400,
             headers := [] }, s, []) := by
  rw [fetch_on_svg noFaults dec render now req s hp]
  exact handleSvg_decompress_failed noFaults dec render now req s c hm hc (Or.inr hd)

/-- Witness for C10 with a decompressor returning the empty string. -/
theorem svg_empty_decompression_witness :
    fetch noFaults decEmpty renderSvgOk "t" reqA st0 =
      .ok ({ body := .text "Failed to decompress mermaid parameter", status := 400,
             headers := [] }, st0, []) :=
  svg_empty_decompression_rejected decEmpty renderSvgOk "t" reqA st0 "abc"
    rfl rfl (by decide) rfl

/-- C4: a `/svg` request whose canonical URL has a cache entry records a
hit (the KV read-modify-write appears in the trace before the handler
returns), returns the cached response object unmodified — original body,
status and headers — and terminates with no render call and no cache
write (the cache component of the state is unchanged and the trace has no
render or store event). -/
theorem svg_cache_hit_returns_cached (dec : String → Option String)
    (render : String → String → Except Unit String) (now : String)
    (req : Req) (s : WorkerState) (c m : String) (resp : Response)
    (hp : req.pathname = "/svg") (hm : req.mermaidParam = some c) (hc : c ≠ "")
    (hd : dec c = some m) (hme : m ≠ "")
    (hhit : cacheMatch s.cache req.url = some resp) :
    fetch noFaults dec render now req s =
      .ok (resp, { s with kvStats := some (incrementCacheHit now s.kvStats) },
           [.cacheMatch req.url true, .kvGet, .kvPut (incrementCacheHit now s.kvStats)]) := by
  rw [fetch_on_svg noFaults dec render now req s hp]
  exact handleSvg_hit noFaults dec render now req s c m resp hm hc hd hme hhit rfl rfl rfl

/-- Witness for C4 at a state whose cache holds the request's URL. -/
theorem svg_cache_hit_witness :
    fetch noFaults decId renderSvgOk "t" reqA stHit =
      .ok (svgResponse "<svg>cached</svg>",
           { stHit with kvStats := some (incrementCacheHit "t" stHit.kvStats) },
           [.cacheMatch reqA.url true, .kvGet, .kvPut (incrementCacheHit "t" stHit.kvStats)]) :=
  svg_cache_hit_returns_cached decId renderSvgOk "t" reqA stHit "abc" "abc"
    (svgResponse "<svg>cached</svg>") rfl rfl (by decide) rfl (by decide) rfl

/-- C2: on a cache miss, if the renderer throws any fault, or succeeds but
its output does not begin with `<svg`, the handler returns a 500 response;
the cache component of the state is unchanged (nothing is stored for the
URL) and the stats record keeps the incremented miss counter; the trace
shows the miss KV write strictly before the render call. -/
theorem svg_render_failure_500 (dec : String → Option String)
    (render : String → String → Except Unit String) (now : String)
    (req : Req) (s : WorkerState) (c m : String)
    (hp : req.pathname = "/svg") (hm : req.mermaidParam = some c) (hc : c ≠ "")
    (hd : dec c = some m) (hme : m ≠ "")
    (hmiss : cacheMatch s.cache req.url = none)
    (hbad : render m (themeOf req) = .error () ∨
      ∃ svg, render m (themeOf req) = .ok svg ∧ startsWithSvg svg = false) :
    ∃ msg, fetch noFaults dec render now req s =
      .ok ({ body := .text msg, status := 500, headers := [] },
           { s with kvStats := some (incrementCacheMiss now s.kvStats) },
           [.cacheMatch req.url false, .kvGet, .kvPut (incrementCacheMiss now s.kvStats),
            .renderCall m (themeOf req)]) := by
  rw [fetch_on_svg noFaults dec render now req s hp]
  rcases hbad with hr | ⟨svg, hr, hb⟩
  · exact ⟨"Internal error", handleSvg_miss_render_error noFaults dec render now req s c m
      hm hc hd hme hmiss hr rfl rfl rfl⟩
  · exact ⟨"Failed to render SVG", handleSvg_miss_malformed noFaults dec render now req s c m svg
      hm hc hd hme hmiss hr hb rfl rfl rfl⟩

/-- Witness for C2 with a throwing renderer. -/
theorem svg_render_failure_witness :
    ∃ msg, fetch noFaults decId renderThrow "t" reqA st0 =
      .ok ({ body := .text msg, status := 500, headers := [] },
           { st0 with kvStats := some (incrementCacheMiss "t" st0.kvStats) },
           [.cacheMatch reqA.url false, .kvGet, .kvPut (incrementCacheMiss "t" st0.kvStats),
            .renderCall "abc" (themeOf reqA)]) :=
  svg_render_failure_500 decId renderThrow "t" reqA st0 "abc" "abc"
    rfl rfl (by decide) rfl (by decide) rfl (Or.inl rfl)

/-- C5: on a cache miss where the renderer returns well-formed output, the
handler responds with that artifact as the body, status 200,
`Content-Type: image/svg+xml` and `Cache-Control: public, max-age=31536000`
(all inside `svgResponse`), and initiates the store of that response into
the cache keyed by the canonical request URL as a detached
`ctx.waitUntil` task (the `asyncCachePut` trace event; the response is
returned without awaiting the write, which is why a failing write cannot
change the response — see `async_cache_put_fault_preserves_response`). -/
theorem svg_render_success_response_and_store (dec : String → Option String)
    (render : String → String → Except Unit String) (now : String)
    (req : Req) (s : WorkerState) (c m svg : String)
    (hp : req.pathname = "/svg") (hm : req.mermaidParam = some c) (hc : c ≠ "")
    (hd : dec c = some m) (hme : m ≠ "")
    (hmiss : cacheMatch s.cache req.url = none)
    (hr : render m (themeOf req) = .ok svg)
    (hgood : startsWithSvg svg = true) :
    fetch noFaults dec render now req s =
      .ok (svgResponse svg,
           { kvStats := some (incrementCacheMiss now s.kvStats)
             cache := cachePut s.cache req.url (svgResponse svg) },
           [.cacheMatch req.url false, .kvGet, .kvPut (incrementCacheMiss now s.kvStats),
            .renderCall m (themeOf req), .asyncCachePut req.url]) := by
  rw [fetch_on_svg noFaults dec render now req s hp]
  exact handleSvg_miss_success noFaults dec render now req s c m svg
    hm hc hd hme hmiss hr hgood rfl rfl rfl

/-- Witness for C5 with a renderer producing a well-formed artifact. -/
theorem svg_render_success_witness :
    fetch noFaults decId renderSvgOk "t" reqA st0 =
      .ok (svgResponse "<svg>ok</svg>",
           { kvStats := some (incrementCacheMiss "t" st0.kvStats)
             cache := cachePut st0.cache reqA.url (svgResponse "<svg>ok</svg>") },
           [.cacheMatch reqA.url false, .kvGet, .kvPut (incrementCacheMiss "t" st0.kvStats),
            .renderCall "abc" (themeOf reqA), .asyncCachePut reqA.url]) :=
  svg_render_success_response_and_store decId renderSvgOk "t" reqA st0 "abc" "abc"
    "<svg>ok</svg>" rfl rfl (by decide) rfl (by decide) rfl rfl (by decide)

/-- C6: the `/cache-stats` view returns the stats record (as read through
`getCacheStats`) together with `total = hits + misses` and
`hitRate = hits/total` as a two-decimal percentage string; the rate is
`"0.00%"` whenever `total = 0` (the `total > 0` guard, never dividing by
zero); in particular `hitRateString 45 57 = "78.95%"` with total
`45 + 12 = 57`. -/
theorem cache_stats_view_totals_and_hit_rate (dec : String → Option String)
    (render : String → String → Except Unit String) (now : String)
    (req : Req) (s : WorkerState) (hp : req.pathname = "/cache-stats") :
    fetch noFaults dec render now req s =
      .ok ({ body := .statsJson (getCacheStats now s.kvStats).hits
               (getCacheStats now s.kvStats).misses
               (getCacheStats now s.kvStats).lastReset
               ((getCacheStats now s.kvStats).hits + (getCacheStats now s.kvStats).misses)
               (hitRateString (getCacheStats now s.kvStats).hits
                 ((getCacheStats now s.kvStats).hits + (getCacheStats now s.kvStats).misses))
               (efficiencyString (getCacheStats now s.kvStats).hits
                 ((getCacheStats now s.kvStats).hits + (getCacheStats now s.kvStats).misses))
             status := 200
             headers := [("Content-Type", "application/json")] }, s, [.kvGet]) ∧
    hitRateString 45 (45 + 12) = "78.95%" ∧
    (∀ n : Nat, hitRateString n 0 = "0.00%") := by
  refine ⟨fetch_on_stats noFaults dec render now req s hp rfl, rfl, fun n => ?_⟩
  simp [hitRateString]

/-- Witness for C6 at the spec's worked example `{hits: 45, misses: 12}`. -/
theorem cache_stats_view_witness :
    fetch noFaults decId renderSvgOk "t2" reqStats stStats =
      .ok ({ body := .statsJson 45 12 "2024-01-15T10:30:00.000Z" 57 "78.95%"
               "45/57 requests served from cache"
             status := 200
             headers := [("Content-Type", "application/json")] }, stStats, [.kvGet]) ∧
    hitRateString 45 (45 + 12) = "78.95%" ∧
    (∀ n : Nat, hitRateString n 0 = "0.00%") :=
  cache_stats_view_totals_and_hit_rate decId renderSvgOk "t2" reqStats stStats rfl

/-- C8: a `/cache-stats/reset` request unconditionally overwrites any prior
stats record with zeroed counters and the fresh timestamp; a subsequent
read returns `{hits: 0, misses: 0, lastReset: now}`, and a subsequent
recorded hit or miss increments the corresponding counter from zero to
one. -/
theorem reset_zeroes_and_increments_from_zero (dec : String → Option String)
    (render : String → String → Except Unit String) (now now2 : String)
    (req : Req) (s : WorkerState) (hp : req.pathname = "/cache-stats/reset") :
    fetch noFaults dec render now req s =
      .ok ({ body := .messageJson "Cache statistics reset", status := 200,
             headers := [("Content-Type", "application/json")] },
           { s with kvStats := some (resetCacheStats now) },
           [.kvPut (resetCacheStats now)]) ∧
    getCacheStats now2 (some (resetCacheStats now)) = ⟨0, 0, now⟩ ∧
    incrementCacheHit now2 (some (resetCacheStats now)) = ⟨1, 0, now⟩ ∧
    incrementCacheMiss now2 (some (resetCacheStats now)) = ⟨0, 1, now⟩ :=
  ⟨fetch_on_reset noFaults dec render now req s hp rfl, rfl, rfl, rfl⟩

/-- Witness for C8 at a prior state with nonzero counters. -/
theorem reset_zeroes_witness :
    fetch noFaults decId renderSvgOk "t3" reqReset stStats =
      .ok ({ body := .messageJson "Cache statistics reset", status := 200,
             headers := [("Content-Type", "application/json")] },
           { stStats with kvStats := some (resetCacheStats "t3") },
           [.kvPut (resetCacheStats "t3")]) ∧
    getCacheStats "t4" (some (resetCacheStats "t3")) = ⟨0, 0, "t3"⟩ ∧
    incrementCacheHit "t4" (some (resetCacheStats "t3")) = ⟨1, 0, "t3"⟩ ∧
    incrementCacheMiss "t4" (some (resetCacheStats "t3")) = ⟨0, 1, "t3"⟩ :=
  reset_zeroes_and_increments_from_zero decId renderSvgOk "t3" "t4" reqReset stStats rfl

/-- C9: the `/cache-entries` view reports `count` as the full number of
cached keys (not capped) while the `entries` listing is truncated to the
first 50; an empty cache yields count 0 with an empty listing, and a cache
of 73 entries yields count 73 with exactly the first 50 entries listed. -/
theorem cache_entries_count_uncapped_listing_capped (dec : String → Option String)
    (render : String → String → Except Unit String) (now : String)
    (req : Req) (s : WorkerState) (hp : req.pathname = "/cache-entries") :
    fetch noFaults dec render now req s =
      .ok ({ body := .entriesJson s.cache.length ((s.cache.map (fun e => (e.1, "GET"))).take 50)
             status := 200
             headers := [("Content-Type", "application/json")] }, s, []) ∧
    (s.cache = [] → s.cache.length = 0 ∧ (s.cache.map (fun e => (e.1, "GET"))).take 50 = []) ∧
    (s.cache.length = 73 → ((s.cache.map (fun e => (e.1, "GET"))).take 50).length = 50) := by
  refine ⟨?_, ?_, ?_⟩
  · have h := fetch_on_entries noFaults dec render now req s hp
    simpa [List.length_map] using h
  · intro h
    simp [h]
  · intro h
    simp [List.length_take, List.length_map, h]

/-- Witness for C9 at a state with 73 cached entries. -/
theorem cache_entries_witness :
    (fetch noFaults decId renderSvgOk "t" reqEntries st73 =
      .ok ({ body := .entriesJson st73.cache.length
               ((st73.cache.map (fun e => (e.1, "GET"))).take 50)
             status := 200
             headers := [("Content-Type", "application/json")] }, st73, [])) ∧
    st73.cache.length = 73 ∧
    ((st73.cache.map (fun e => (e.1, "GET"))).take 50).length = 50 := by
  have h := cache_entries_count_uncapped_listing_capped decId renderSvgOk "t" reqEntries st73 rfl
  exact ⟨h.1, by decide, h.2.2 (by decide)⟩

/-- Counterexample to C1: on a concrete `/svg` cache miss, a failing KV
write during `incrementCacheMiss` escapes the handler uncaught (`fetch`
yields `Except.error`, the worker throws), whereas the fault-free run
returns the rendered artifact — so a Stats Store failure does change what
the caller receives, instead of being logged and ignored. -/
theorem stats_write_fault_changes_response :
    fetch ⟨false, true, false, false⟩ decId renderSvgOk "t" reqA st0 = .error () ∧
    fetch noFaults decId renderSvgOk "t" reqA st0 =
      .ok (svgResponse "<svg>ok</svg>",
           ⟨some ⟨0, 1, "t"⟩, [(reqA.url, svgResponse "<svg>ok</svg>")]⟩,
           [.cacheMatch reqA.url false, .kvGet, .kvPut ⟨0, 1, "t"⟩,
            .renderCall "abc" "default", .asyncCachePut reqA.url]) := ⟨rfl, rfl⟩

/-- C1 amended: the only store failure the render pipeline absorbs
silently is that of the detached `ctx.waitUntil(cache.put(...))` write —
with the lookup and KV operations healthy, a failing cache store never
changes the HTTP response the caller receives (the result differs from
the fault-free run at most in the cache contents); failures of the Cache
Store lookup or of the Stats Store read/write during recordHit/recordMiss
escape the handler uncaught and do change the outcome. -/
theorem async_cache_put_fault_preserves_response (dec : String → Option String)
    (render : String → String → Except Unit String) (now : String)
    (req : Req) (s : WorkerState) :
    (fetch ⟨false, false, false, true⟩ dec render now req s).map (fun out => out.1) =
    (fetch noFaults dec render now req s).map (fun out => out.1) := by
  by_cases h1 : req.pathname = "/cache-stats"
  · rw [fetch_on_stats ⟨false, false, false, true⟩ dec render now req s h1 rfl,
        fetch_on_stats noFaults dec render now req s h1 rfl]
  · by_cases h2 : req.pathname = "/cache-stats/reset"
    · rw [fetch_on_reset ⟨false, false, false, true⟩ dec render now req s h2 rfl,
          fetch_on_reset noFaults dec render now req s h2 rfl]
    · by_cases h3 : req.pathname = "/cache-entries"
      · rw [fetch_on_entries ⟨false, false, false, true⟩ dec render now req s h3,
            fetch_on_entries noFaults dec render now req s h3]
      · by_cases h4 : req.pathname = "/svg"
        · rw [fetch_on_svg ⟨false, false, false, true⟩ dec render now req s h4,
              fetch_on_svg noFaults dec render now req s h4]
          rcases hm : req.mermaidParam with _ | c
          · rw [handleSvg_missing_param ⟨false, false, false, true⟩ dec render now req s (Or.inl hm),
                handleSvg_missing_param noFaults dec render now req s (Or.inl hm)]
          · by_cases hc : c = ""
            · subst hc
              rw [handleSvg_missing_param ⟨false, false, false, true⟩ dec render now req s (Or.inr hm),
                  handleSvg_missing_param noFaults dec render now req s (Or.inr hm)]
            · rcases hd : dec c with _ | m
              · rw [handleSvg_decompress_failed ⟨false, false, false, true⟩ dec render now req s c hm hc (Or.inl hd),
                    handleSvg_decompress_failed noFaults dec render now req s c hm hc (Or.inl hd)]
              · by_cases hme : m = ""
                · subst hme
                  rw [handleSvg_decompress_failed ⟨false, false, false, true⟩ dec render now req s c hm hc (Or.inr hd),
                      handleSvg_decompress_failed noFaults dec render now req s c hm hc (Or.inr hd)]
                · rcases hmatch : cacheMatch s.cache req.url with _ | resp
                  · rcases hr : render m (themeOf req) with e | svg
                    · cases e
                      rw [handleSvg_miss_render_error ⟨false, false, false, true⟩ dec render now req s c m hm hc hd hme hmatch hr rfl rfl rfl,
                          handleSvg_miss_render_error noFaults dec render now req s c m hm hc hd hme hmatch hr rfl rfl rfl]
                    · rcases hsw : startsWithSvg svg with _ | _
                      · rw [handleSvg_miss_malformed ⟨false, false, false, true⟩ dec render now req s c m svg hm hc hd hme hmatch hr hsw rfl rfl rfl,
                            handleSvg_miss_malformed noFaults dec render now req s c m svg hm hc hd hme hmatch hr hsw rfl rfl rfl]
                      · rw [handleSvg_miss_success ⟨false, false, false, true⟩ dec render now req s c m svg hm hc hd hme hmatch hr hsw rfl rfl rfl,
                            handleSvg_miss_success noFaults dec render now req s c m svg hm hc hd hme hmatch hr hsw rfl rfl rfl]
                        rfl
                  · rw [handleSvg_hit ⟨false, false, false, true⟩ dec render now req s c m resp hm hc hd hme hmatch rfl rfl rfl,
                        handleSvg_hit noFaults dec render now req s c m resp hm hc hd hme hmatch rfl rfl rfl]
        · rw [fetch_on_notfound ⟨false, false, false, true⟩ dec render now req s h1 h2 h3 h4,
              fetch_on_notfound noFaults dec render now req s h1 h2 h3 h4]

theorem fetch_statsSum_step (dec : String → Option String)
    (render : String → String → Except Unit String) (now : String)
    (r : Req) (s : WorkerState) (out : Response × WorkerState × List Ev)
    (h : fetch noFaults dec render now r s = .ok out) :
    countLookups out.2.2 ≤ 1 ∧
    (r.pathname = "/cache-stats/reset" → statsSum out.2.1.kvStats = 0) ∧
    (r.pathname ≠ "/cache-stats/reset" →
       statsSum out.2.1.kvStats = statsSum s.kvStats + countLookups out.2.2) ∧
    (countLookups out.2.2 = 0 → r.pathname ≠ "/cache-stats/reset" →
       out.2.1.kvStats = s.kvStats) ∧
    (countLookups out.2.2 = 1 →
       out.2.1.kvStats = some (incrementCacheHit now s.kvStats) ∨
       out.2.1.kvStats = some (incrementCacheMiss now s.kvStats)) := by
  by_cases h1 : r.pathname = "/cache-stats"
  · rw [fetch_on_stats noFaults dec render now r s h1 rfl] at h
    injection h with h
    subst h
    simp [h1, countLookups]
  · by_cases h2 : r.pathname = "/cache-stats/reset"
    · rw [fetch_on_reset noFaults dec render now r s h2 rfl] at h
      injection h with h
      subst h
      simp [h2, countLookups, statsSum, resetCacheStats]
    · by_cases h3 : r.pathname = "/cache-entries"
      · rw [fetch_on_entries noFaults dec render now r s h3] at h
        injection h with h
        subst h
        simp [h2, countLookups]
      · by_cases h4 : r.pathname = "/svg"
        · rw [fetch_on_svg noFaults dec render now r s h4] at h
          rcases hm : r.mermaidParam with _ | c
          · rw [handleSvg_missing_param noFaults dec render now r s (Or.inl hm)] at h
            injection h with h
            subst h
            simp [h2, countLookups]
          · by_cases hc : c = ""
            · subst hc
              rw [handleSvg_missing_param noFaults dec render now r s (Or.inr hm)] at h
              injection h with h
              subst h
              simp [h2, countLookups]
            · rcases hd : dec c with _ | m
              · rw [handleSvg_decompress_failed noFaults dec render now r s c hm hc (Or.inl hd)] at h
                injection h with h
                subst h
                simp [h2, countLookups]
              · by_cases hme : m = ""
                · subst hme
                  rw [handleSvg_decompress_failed noFaults dec render now r s c hm hc (Or.inr hd)] at h
                  injection h with h
                  subst h
                  simp [h2, countLookups]
                · rcases hmatch : cacheMatch s.cache r.url with _ | resp
                  · rcases hr : render m (themeOf r) with e | svg
                    · cases e
                      rw [handleSvg_miss_render_error noFaults dec render now r s c m hm hc hd hme hmatch hr rfl rfl rfl] at h
                      injection h with h
                      subst h
                      simp [h2, countLookups, statsSum_some_incrementCacheMiss]
                    · rcases hsw : startsWithSvg svg with _ | _
                      · rw [handleSvg_miss_malformed noFaults dec render now r s c m svg hm hc hd hme hmatch hr hsw rfl rfl rfl] at h
                        injection h with h
                        subst h
                        simp [h2, countLookups, statsSum_some_incrementCacheMiss]
                      · rw [handleSvg_miss_success noFaults dec render now r s c m svg hm hc hd hme hmatch hr hsw rfl rfl rfl] at h
                        injection h with h
                        subst h
                        simp [h2, countLookups, statsSum_some_incrementCacheMiss]
                  · rw [handleSvg_hit noFaults dec render now r s c m resp hm hc hd hme hmatch rfl rfl rfl] at h
                    injection h with h
                    subst h
                    simp [h2, countLookups, statsSum_some_incrementCacheHit]
        · rw [fetch_on_notfound noFaults dec render now r s h1 h2 h3 h4] at h
          injection h with h
          subst h
          simp [h2, countLookups]

theorem runReqs_statsSum (dec : String → Option String)
    (render : String → String → Except Unit String) :
    ∀ (reqs : List (Req × String)) (s0 : WorkerState) (acc : Nat),
      acc = statsSum s0.kvStats →
      statsSum (runReqs dec render s0 reqs).kvStats = lookupTally dec render acc s0 reqs := by
  intro reqs
  induction reqs with
  | nil =>
    intro s0 acc hacc
    simp [runReqs, lookupTally, hacc]
  | cons pr rest ih =>
    intro s0 acc hacc
    obtain ⟨r, now⟩ := pr
    rcases hf : fetch noFaults dec render now r s0 with e | out
    · simp only [runReqs, lookupTally, hf]
      exact hacc.symm
    · obtain ⟨resp, s2, evs⟩ := out
      have hstep := fetch_statsSum_step dec render now r s0 (resp, s2, evs) hf
      dsimp only at hstep
      simp only [runReqs, lookupTally, hf]
      by_cases hr : r.pathname = "/cache-stats/reset"
      · rw [if_pos hr]
        exact ih s2 0 (hstep.2.1 hr).symm
      · rw [if_neg hr]
        exact ih s2 (acc + countLookups evs) (by rw [hacc, hstep.2.2.1 hr])

/-- C7: in a sequential fault-free execution, the sum `hits + misses` of
the stats record equals the running tally of cache lookups since the most
recent reset (`lookupTally`: zeroed by a reset request, incremented once
per lookup), and per request: at most one lookup happens, a reset zeroes
the sum, a non-reset request grows the sum by exactly its number of
lookups, a request with no lookup leaves the record untouched (nothing
else mutates it), and a request with a lookup writes exactly the hit- or
the miss-incremented record. -/
theorem stats_sum_equals_lookups_since_reset (dec : String → Option String)
    (render : String → String → Except Unit String)
    (s0 : WorkerState) (reqs : List (Req × String)) :
    statsSum (runReqs dec render s0 reqs).kvStats =
      lookupTally dec render (statsSum s0.kvStats) s0 reqs ∧
    (∀ now r s out, fetch noFaults dec render now r s = .ok out →
      countLookups out.2.2 ≤ 1 ∧
      (r.pathname = "/cache-stats/reset" → statsSum out.2.1.kvStats = 0) ∧
      (r.pathname ≠ "/cache-stats/reset" →
         statsSum out.2.1.kvStats = statsSum s.kvStats + countLookups out.2.2) ∧
      (countLookups out.2.2 = 0 → r.pathname ≠ "/cache-stats/reset" →
         out.2.1.kvStats = s.kvStats) ∧
      (countLookups out.2.2 = 1 →
         out.2.1.kvStats = some (incrementCacheHit now s.kvStats) ∨
         out.2.1.kvStats = some (incrementCacheMiss now s.kvStats))) :=
  ⟨runReqs_statsSum dec render reqs s0 (statsSum s0.kvStats) rfl,
   fun now r s out h => fetch_statsSum_step dec render now r s out h⟩

/-- Witness for C7 on a concrete two-request run (a miss then a hit). -/
theorem stats_sum_lookups_witness :
    (statsSum (runReqs decId renderSvgOk st0 [(reqA, "t"), (reqA, "t2")]).kvStats =
      lookupTally decId renderSvgOk (statsSum st0.kvStats) st0 [(reqA, "t"), (reqA, "t2")]) ∧
    countLookups [Ev.cacheMatch reqA.url false, Ev.kvGet, Ev.kvPut ⟨0, 1, "t"⟩,
      Ev.renderCall "abc" "default", Ev.asyncCachePut reqA.url] ≤ 1 := by
  have h := stats_sum_equals_lookups_since_reset decId renderSvgOk st0 [(reqA, "t"), (reqA, "t2")]
  exact ⟨h.1, (h.2 "t" reqA st0 _ rfl).1⟩

end MermaidToSvg
